import Mathlib

/-!
Shallow embedding of `apollo_extractor.py` (Apollo contact extractor).

The program is a two-step lookup workflow over a vendor HTTP API:
match a LinkedIn URL to a person record, conditionally enrich it, extract a
flat 13-field output record, and batch this over input rows while tracking
logical credit counters.

Modelling decisions:
* JSON string fields that may be absent or `None` become `Option String`.
* Python truthiness of such a value (`if not linkedin_url`, `x or y`) is
  `truthyStr`: `none` and `some ""` are falsy.
* A vendor person payload is `Option Person`; Python's `if not person`
  is falsy both for an absent/`None` payload and for an empty mapping,
  which in this embedding is the all-absent `Person.empty` value.
* The network is abstracted: the match and enrich responses that the two
  POST calls would return are inputs of `lookup_person`.  A response is a
  mapping that may carry an `"error"` key (set exactly when `_post` caught a
  transport error) and a `"person"` key.
* The mutable `CreditUsage` dataclass on the client becomes explicit
  state threaded through every function that mutates it.
-/

/-- One entry of a person's `emails` candidate list: `{email, status, type}`,
each key optional. -/
structure EmailEntry where
  email : Option String
  status : Option String
  type : Option String
deriving DecidableEq, Repr

/-- One entry of a person's `phone_numbers` candidate list:
`{number, sanitized_number, label, status}`, each key optional. -/
structure PhoneEntry where
  number : Option String
  sanitized_number : Option String
  label : Option String
  status : Option String
deriving DecidableEq, Repr

/-- The nested `organization` sub-mapping. -/
structure Organization where
  name : Option String
  website_url : Option String
  industry : Option String
deriving DecidableEq, Repr

/-- `person.get("organization", {})` falls back to an empty mapping. -/
def Organization.empty : Organization :=
  { name := none, website_url := none, industry := none }

/-- A vendor person record, as consumed by `_extract_all`, `enrich_person`
and the extraction helpers. -/
structure Person where
  linkedin_url : Option String
  first_name : Option String
  last_name : Option String
  title : Option String
  id : Option String
  emails : List EmailEntry
  phone_numbers : List PhoneEntry
  organization : Option Organization
deriving DecidableEq, Repr

/-- The person value corresponding to an empty mapping `{}` (every key
absent); in Python an empty dict is falsy. -/
def Person.empty : Person :=
  { linkedin_url := none, first_name := none, last_name := none,
    title := none, id := none, emails := [], phone_numbers := [],
    organization := none }

/-- Python truthiness of an optional string: `None` and `""` are falsy. -/
def truthyStr : Option String → Bool
  | none => false
  | some s => !s.isEmpty

/-- Python `a or b` on optional strings: `a` when truthy, else `b`. -/
def pyOr (a b : Option String) : Option String :=
  if truthyStr a then a else b

/-- Python truthiness of an optional person payload: absent/`None` and the
empty mapping are falsy. -/
def personTruthy : Option Person → Bool
  | none => false
  | some p => decide (p ≠ Person.empty)

/-- A decoded response of `_post`: the `"error"` key is present exactly on a
caught transport error; a `"person"` key may carry a person payload. -/
structure ApiResponse where
  error : Option String
  person : Option Person
deriving DecidableEq, Repr

/-- The `CreditUsage` dataclass: four logical call counters. -/
structure CreditUsage where
  match_credits : Nat
  enrich_credits : Nat
  email_credits : Nat
  mobile_credits : Nat
deriving DecidableEq, Repr

/-- The candidate test of `extract_verified_email`:
`e.get("status") == "verified" and e.get("type") in ("work", "email")`. -/
def emailQualifies (e : EmailEntry) : Bool :=
  e.status == some "verified" && (e.type == some "work" || e.type == some "email")

/-- The `for e in emails` loop of `extract_verified_email`: first qualifying
candidate wins, incrementing the email-credit counter; `None` if none. -/
def email_scan (c : CreditUsage) : List EmailEntry → Option String × CreditUsage
  | [] => (none, c)
  | e :: rest =>
    if emailQualifies e then
      (e.email, { c with email_credits := c.email_credits + 1 })
    else
      email_scan c rest

/-- `ApolloClient.extract_verified_email`. -/
def extract_verified_email (person : Person) (c : CreditUsage) :
    Option String × CreditUsage :=
  email_scan c person.emails

/-- The candidate test of `extract_verified_mobile`:
`p.get("label") == "mobile" and p.get("status") == "verified"`. -/
def phoneQualifies (p : PhoneEntry) : Bool :=
  p.label == some "mobile" && p.status == some "verified"

/-- The `for p in phones` loop of `extract_verified_mobile`: first qualifying
candidate wins, returning `p.get("sanitized_number") or p.get("number")`
(Python `or`) and incrementing the mobile-credit counter; `None` if none. -/
def phone_scan (c : CreditUsage) : List PhoneEntry → Option String × CreditUsage
  | [] => (none, c)
  | p :: rest =>
    if phoneQualifies p then
      (pyOr p.sanitized_number p.number, { c with mobile_credits := c.mobile_credits + 1 })
    else
      phone_scan c rest

/-- `ApolloClient.extract_verified_mobile`. -/
def extract_verified_mobile (person : Person) (c : CreditUsage) :
    Option String × CreditUsage :=
  phone_scan c person.phone_numbers

/-- The flat output record: the fixed 13 fields of `OUTPUT_FIELDNAMES`. -/
structure OutputRecord where
  input_linkedin_url : Option String
  first_name : Option String
  last_name : Option String
  job_title : Option String
  company_name : Option String
  company_website : Option String
  industry : Option String
  verified_email : Option String
  verified_mobile_phone : Option String
  linkedin_url : Option String
  apollo_person_id : Option String
  lookup_used : Option String
  apollo_error : Option String
deriving DecidableEq, Repr

/-- The `OUTPUT_FIELDNAMES` constant: the fixed column order. -/
def OUTPUT_FIELDNAMES : List String :=
  [ "input_linkedin_url", "first_name", "last_name", "job_title",
    "company_name", "company_website", "industry", "verified_email",
    "verified_mobile_phone", "linkedin_url", "apollo_person_id",
    "lookup_used", "apollo_error" ]

/-- View of an `OutputRecord` as the ordered field mapping that
`csv.DictWriter` / `json.dump` serialize. -/
def OutputRecord.toFields (r : OutputRecord) : List (String × Option String) :=
  [ ("input_linkedin_url", r.input_linkedin_url),
    ("first_name", r.first_name),
    ("last_name", r.last_name),
    ("job_title", r.job_title),
    ("company_name", r.company_name),
    ("company_website", r.company_website),
    ("industry", r.industry),
    ("verified_email", r.verified_email),
    ("verified_mobile_phone", r.verified_mobile_phone),
    ("linkedin_url", r.linkedin_url),
    ("apollo_person_id", r.apollo_person_id),
    ("lookup_used", r.lookup_used),
    ("apollo_error", r.apollo_error) ]

/-- `ApolloClient._extract_all`: map a person payload to an output record,
`lookup_used` and `apollo_error` left unset.  The dict literal evaluates
the email extraction before the mobile extraction. -/
def extract_all (person : Person) (c : CreditUsage) : OutputRecord × CreditUsage :=
  let org := person.organization.getD Organization.empty
  let email := extract_verified_email person c
  let mobile := extract_verified_mobile person email.2
  ({ input_linkedin_url := person.linkedin_url,
     first_name := person.first_name,
     last_name := person.last_name,
     job_title := person.title,
     company_name := org.name,
     company_website := org.website_url,
     industry := org.industry,
     verified_email := email.1,
     verified_mobile_phone := mobile.1,
     linkedin_url := person.linkedin_url,
     apollo_person_id := person.id,
     lookup_used := none,
     apollo_error := none }, mobile.2)

/-- `ApolloClient._empty_result`: all 13 fields `None`, then
`input_linkedin_url` and `apollo_error` overwritten. -/
def empty_result (linkedin_url : Option String) (error : String) : OutputRecord :=
  { input_linkedin_url := linkedin_url,
    first_name := none, last_name := none, job_title := none,
    company_name := none, company_website := none, industry := none,
    verified_email := none, verified_mobile_phone := none,
    linkedin_url := none, apollo_person_id := none, lookup_used := none,
    apollo_error := some error }

/-- `ApolloClient.lookup_person`.  `matchResp` is the response the match POST
would return; `enrichResp` the response the enrich POST would return (only
consulted on the paths where the code performs that call).
`match_by_linkedin` increments the match-credit counter before its POST;
`enrich_person` increments the enrich-credit counter before its POST. -/
def lookup_person (linkedin_url : Option String)
    (matchResp enrichResp : ApiResponse) (c : CreditUsage) :
    OutputRecord × CreditUsage :=
  -- `if not linkedin_url:`
  if !truthyStr linkedin_url then
    (empty_result none "Empty LinkedIn URL.", c)
  else
    -- STEP 1: `match = self.match_by_linkedin(linkedin_url)`
    let c := { c with match_credits := c.match_credits + 1 }
    -- `if "error" in match:`
    match matchResp.error with
    | some err => (empty_result linkedin_url ("MATCH API error: " ++ err), c)
    | none =>
      -- `person = match.get("person")`; `if not person:`
      match matchResp.person with
      | none => (empty_result linkedin_url "No match found.", c)
      | some person =>
        if person = Person.empty then
          (empty_result linkedin_url "No match found.", c)
        else
          -- extract from the MATCH response
          let ex := extract_all person c
          let extracted := { ex.1 with lookup_used := some "match" }
          let c := ex.2
          -- `if extracted["verified_mobile_phone"]:`
          if truthyStr extracted.verified_mobile_phone then
            (extracted, c)
          else
            -- STEP 2: `enrich = self.enrich_person(person)`
            let c := { c with enrich_credits := c.enrich_credits + 1 }
            -- `if "error" in enrich:`
            match enrichResp.error with
            | some err =>
              ({ extracted with
                  lookup_used := some "enrich"
                  apollo_error := some ("Enrich error: " ++ err) }, c)
            | none =>
              -- `enriched_person = enrich.get("person")`; `if enriched_person:`
              match enrichResp.person with
              | some ep =>
                if ep = Person.empty then
                  ({ extracted with
                      lookup_used := some "enrich"
                      apollo_error := some "No enrichment data returned." }, c)
                else
                  let en := extract_all ep c
                  ({ en.1 with
                      lookup_used := some "enrich"
                      input_linkedin_url := linkedin_url }, en.2)
              | none =>
                ({ extracted with
                    lookup_used := some "enrich"
                    apollo_error := some "No enrichment data returned." }, c)

/-- One input row of the batch together with the responses its (at most two)
POST calls would receive: `url` is `row.get(linkedin_column)`. -/
structure RowEnv where
  url : Option String
  matchResp : ApiResponse
  enrichResp : ApiResponse
deriving DecidableEq, Repr

/-- The row loop of `ApolloClient.process_csv` (after its file/column
precondition checks): one `lookup_person` per row, results appended in input
order, the credit state threaded through. -/
def process_rows : List RowEnv → CreditUsage → List OutputRecord × CreditUsage
  | [], c => ([], c)
  | r :: rest, c =>
    let out := lookup_person r.url r.matchResp r.enrichResp c
    let rec_rest := process_rows rest out.2
    (out.1 :: rec_rest.1, rec_rest.2)

/-! ### Helper lemmas

The record produced by an extraction does not depend on the credit state
threaded through it, and each scan only touches its own counter. -/

lemma email_scan_fst (l : List EmailEntry) :
    ∀ c c' : CreditUsage, (email_scan c l).1 = (email_scan c' l).1 := by
  induction l with
  | nil => intro c c'; rfl
  | cons e rest ih =>
    intro c c'
    by_cases h : emailQualifies e = true
    · simp [email_scan, h]
    · simpa [email_scan, h] using ih c c'

lemma phone_scan_fst (l : List PhoneEntry) :
    ∀ c c' : CreditUsage, (phone_scan c l).1 = (phone_scan c' l).1 := by
  induction l with
  | nil => intro c c'; rfl
  | cons p rest ih =>
    intro c c'
    by_cases h : phoneQualifies p = true
    · simp [phone_scan, h]
    · simpa [phone_scan, h] using ih c c'

lemma extract_all_fst (p : Person) (c c' : CreditUsage) :
    (extract_all p c).1 = (extract_all p c').1 := by
  have he := email_scan_fst p.emails c c'
  have hp := phone_scan_fst p.phone_numbers
    (email_scan c p.emails).2 (email_scan c' p.emails).2
  simp [extract_all, extract_verified_email, extract_verified_mobile, he, hp]

lemma email_scan_match_credits (l : List EmailEntry) :
    ∀ c : CreditUsage, (email_scan c l).2.match_credits = c.match_credits := by
  induction l with
  | nil => intro c; rfl
  | cons e rest ih =>
    intro c
    by_cases h : emailQualifies e = true
    · simp [email_scan, h]
    · simpa [email_scan, h] using ih c

lemma email_scan_enrich_credits (l : List EmailEntry) :
    ∀ c : CreditUsage, (email_scan c l).2.enrich_credits = c.enrich_credits := by
  induction l with
  | nil => intro c; rfl
  | cons e rest ih =>
    intro c
    by_cases h : emailQualifies e = true
    · simp [email_scan, h]
    · simpa [email_scan, h] using ih c

lemma phone_scan_match_credits (l : List PhoneEntry) :
    ∀ c : CreditUsage, (phone_scan c l).2.match_credits = c.match_credits := by
  induction l with
  | nil => intro c; rfl
  | cons p rest ih =>
    intro c
    by_cases h : phoneQualifies p = true
    · simp [phone_scan, h]
    · simpa [phone_scan, h] using ih c

lemma phone_scan_enrich_credits (l : List PhoneEntry) :
    ∀ c : CreditUsage, (phone_scan c l).2.enrich_credits = c.enrich_credits := by
  induction l with
  | nil => intro c; rfl
  | cons p rest ih =>
    intro c
    by_cases h : phoneQualifies p = true
    · simp [phone_scan, h]
    · simpa [phone_scan, h] using ih c

lemma extract_all_enrich_credits (p : Person) (c : CreditUsage) :
    (extract_all p c).2.enrich_credits = c.enrich_credits := by
  simp [extract_all, extract_verified_email, extract_verified_mobile,
    phone_scan_enrich_credits, email_scan_enrich_credits]

lemma extract_all_match_credits (p : Person) (c : CreditUsage) :
    (extract_all p c).2.match_credits = c.match_credits := by
  simp [extract_all, extract_verified_email, extract_verified_mobile,
    phone_scan_match_credits, email_scan_match_credits]

lemma email_scan_eq_find (l : List EmailEntry) (c : CreditUsage) :
    (email_scan c l).1 = (l.find? emailQualifies).bind EmailEntry.email := by
  induction l with
  | nil => rfl
  | cons e rest ih =>
    by_cases h : emailQualifies e = true
    · simp [email_scan, List.find?, h]
    · simp only [email_scan, List.find?, h]
      simpa [h] using ih

lemma phone_scan_eq_find (l : List PhoneEntry) (c : CreditUsage) :
    (phone_scan c l).1 =
      (l.find? phoneQualifies).bind (fun q => pyOr q.sanitized_number q.number) := by
  induction l with
  | nil => rfl
  | cons p rest ih =>
    by_cases h : phoneQualifies p = true
    · simp [phone_scan, List.find?, h]
    · simp only [phone_scan, List.find?, h]
      simpa [h] using ih

/-! ### Path lemmas for `lookup_person` -/

lemma truthyStr_none : truthyStr none = false := rfl

lemma truthyStr_some (s : String) : truthyStr (some s) = !s.isEmpty := rfl

lemma lookup_person_shortcircuit (url : Option String) (m e : ApiResponse)
    (c : CreditUsage) (p : Person)
    (hu : truthyStr url = true)
    (he : m.error = none)
    (hp : m.person = some p)
    (hne : p ≠ Person.empty)
    (hmob : truthyStr (extract_all p c).1.verified_mobile_phone = true) :
    lookup_person url m e c =
      ({ (extract_all p c).1 with lookup_used := some "match" },
        (extract_all p { c with match_credits := c.match_credits + 1 }).2) := by
  have hfst := extract_all_fst p { c with match_credits := c.match_credits + 1 } c
  simp [lookup_person, hu, he, hp, hne, hfst, hmob]

lemma lookup_person_enrich_err_fst (url : Option String) (m e : ApiResponse)
    (c : CreditUsage) (p : Person) (err : String)
    (hu : truthyStr url = true)
    (he : m.error = none)
    (hp : m.person = some p)
    (hne : p ≠ Person.empty)
    (hmob : (extract_all p c).1.verified_mobile_phone = none)
    (herr : e.error = some err) :
    (lookup_person url m e c).1 =
      { (extract_all p c).1 with
          lookup_used := some "enrich"
          apollo_error := some ("Enrich error: " ++ err) } := by
  have hfst := extract_all_fst p { c with match_credits := c.match_credits + 1 } c
  simp [lookup_person, hu, he, hp, hne, hfst, hmob, herr, truthyStr_none]

lemma lookup_person_enrich_none_fst (url : Option String) (m e : ApiResponse)
    (c : CreditUsage) (p : Person)
    (hu : truthyStr url = true)
    (he : m.error = none)
    (hp : m.person = some p)
    (hne : p ≠ Person.empty)
    (hmob : (extract_all p c).1.verified_mobile_phone = none)
    (hee : e.error = none)
    (hep : personTruthy e.person = false) :
    (lookup_person url m e c).1 =
      { (extract_all p c).1 with
          lookup_used := some "enrich"
          apollo_error := some "No enrichment data returned." } := by
  have hfst := extract_all_fst p { c with match_credits := c.match_credits + 1 } c
  cases hp2 : e.person with
  | none => simp [lookup_person, hu, he, hp, hne, hfst, hmob, hee, hp2, truthyStr_none]
  | some ep =>
    rw [hp2] at hep
    have hepe : ep = Person.empty := by
      simpa [personTruthy] using hep
    simp [lookup_person, hu, he, hp, hne, hfst, hmob, hee, hp2, hepe, truthyStr_none]

lemma lookup_person_enrich_success_fst (url : Option String) (m e : ApiResponse)
    (c : CreditUsage) (p ep : Person)
    (hu : truthyStr url = true)
    (he : m.error = none)
    (hp : m.person = some p)
    (hne : p ≠ Person.empty)
    (hmob : (extract_all p c).1.verified_mobile_phone = none)
    (hee : e.error = none)
    (hep : e.person = some ep)
    (hnee : ep ≠ Person.empty) :
    (lookup_person url m e c).1 =
      { (extract_all ep c).1 with
          lookup_used := some "enrich"
          input_linkedin_url := url } := by
  have hfst := extract_all_fst p { c with match_credits := c.match_credits + 1 } c
  have hfst2 := extract_all_fst ep
    { (extract_all p { c with match_credits := c.match_credits + 1 }).2 with
        enrich_credits :=
          (extract_all p { c with match_credits := c.match_credits + 1 }).2.enrich_credits + 1 } c
  simp [lookup_person, hu, he, hp, hne, hfst, hfst2, hmob, hee, hep, hnee, truthyStr_none]

lemma truthyStr_some_of_ne (s : String) (hs : s ≠ "") :
    truthyStr (some s) = true := by
  have h0 : s.isEmpty = false := by
    cases h : s.isEmpty
    · rfl
    · exact absurd ((String.isEmpty_iff s).mp h) hs
  simp [truthyStr, h0]

lemma lookup_person_empty_input (url : Option String) (m e : ApiResponse)
    (c : CreditUsage) (hu : truthyStr url = false) :
    lookup_person url m e c = (empty_result none "Empty LinkedIn URL.", c) := by
  simp [lookup_person, hu]

lemma lookup_person_match_err (url : Option String) (m e : ApiResponse)
    (c : CreditUsage) (err : String)
    (hu : truthyStr url = true) (he : m.error = some err) :
    lookup_person url m e c =
      (empty_result url ("MATCH API error: " ++ err),
        { c with match_credits := c.match_credits + 1 }) := by
  simp [lookup_person, hu, he]

lemma lookup_person_no_match (url : Option String) (m e : ApiResponse)
    (c : CreditUsage)
    (hu : truthyStr url = true) (he : m.error = none)
    (hp : personTruthy m.person = false) :
    lookup_person url m e c =
      (empty_result url "No match found.",
        { c with match_credits := c.match_credits + 1 }) := by
  cases hp2 : m.person with
  | none => simp [lookup_person, hu, he, hp2]
  | some p =>
    rw [hp2] at hp
    have hpe : p = Person.empty := by simpa [personTruthy] using hp
    simp [lookup_person, hu, he, hp2, hpe]

/-! ### Concrete example inputs -/

/-- All-zero starting credit state (a fresh `ApolloClient`). -/
def cZero : CreditUsage := ⟨0, 0, 0, 0⟩

/-- A verified mobile candidate whose vendor `number` is the empty string and
whose `sanitized_number` is absent. -/
def phEmptyNum : PhoneEntry :=
  { number := some "", sanitized_number := none,
    label := some "mobile", status := some "verified" }

/-- A fully populated verified mobile candidate. -/
def phFull : PhoneEntry :=
  { number := some "5550001", sanitized_number := some "+15550001",
    label := some "mobile", status := some "verified" }

/-- Matched person whose only verified mobile candidate carries an empty
`number`. -/
def pC1 : Person :=
  { Person.empty with
      linkedin_url := some "https://linkedin.com/in/echoed"
      first_name := some "Ada"
      phone_numbers := [phEmptyNum] }

def mC1 : ApiResponse := { error := none, person := some pC1 }

def eC1 : ApiResponse := { error := some "timeout", person := none }

def uC1 : Option String := some "https://linkedin.com/in/input"

/-- Matched person with a fully populated verified mobile candidate and a
vendor-echoed URL different from the input URL. -/
def pOk : Person :=
  { Person.empty with
      linkedin_url := some "https://linkedin.com/in/vendor-echo"
      first_name := some "Grace"
      phone_numbers := [phFull] }

def mOk : ApiResponse := { error := none, person := some pOk }

/-- An enrich response for paths on which the enrich call never happens. -/
def eIdle : ApiResponse := { error := some "unused", person := none }

def uIn : Option String := some "https://linkedin.com/in/original-input"

/-! ### Claims -/

/-- Claim C1, as stated, is false: a verified mobile candidate whose number
fields yield the empty string makes the match extraction return the non-null
value `some ""`, yet the code's truthiness test fails, so the enrich call is
made (enrich-credit counter incremented) and `lookup_used` ends up
`"enrich"`. -/
theorem C1_counterexample :
    mC1.error = none ∧ mC1.person = some pC1 ∧
    (extract_all pC1 cZero).1.verified_mobile_phone = some "" ∧
    (lookup_person uC1 mC1 eC1 cZero).2.enrich_credits =
      cZero.enrich_credits + 1 ∧
    (lookup_person uC1 mC1 eC1 cZero).1.lookup_used = some "enrich" := by
  decide

/-- Claim C1 (amended): for every lookup on a non-empty URL where the match
call succeeds with a person payload and extraction of that person yields a
non-null and non-empty (Python-truthy) verified mobile phone, `lookup_person`
returns the match-extracted record with `lookup_used = "match"`, no enrich
call is made, and the enrich-credit counter is unchanged by the lookup. -/
theorem C1_match_sufficient (url : Option String) (m e : ApiResponse)
    (c : CreditUsage) (p : Person)
    (hu : truthyStr url = true)
    (he : m.error = none)
    (hp : m.person = some p)
    (hne : p ≠ Person.empty)
    (hmob : truthyStr (extract_all p c).1.verified_mobile_phone = true) :
    (lookup_person url m e c).1 =
      { (extract_all p c).1 with lookup_used := some "match" } ∧
    (lookup_person url m e c).2.enrich_credits = c.enrich_credits := by
  have h := lookup_person_shortcircuit url m e c p hu he hp hne hmob
  rw [h]
  exact ⟨rfl, by simp [extract_all_enrich_credits]⟩

/-- Witness for C1 at a concrete short-circuiting input. -/
theorem C1_match_sufficient_witness :
    (lookup_person uIn mOk eIdle cZero).1 =
      { (extract_all pOk cZero).1 with lookup_used := some "match" } ∧
    (lookup_person uIn mOk eIdle cZero).2.enrich_credits =
      cZero.enrich_credits :=
  C1_match_sufficient uIn mOk eIdle cZero pOk (by decide) rfl rfl
    (by decide) (by decide)

/-- Claim C10: on the short-circuit path the returned record's
`input_linkedin_url` is the vendor-echoed `linkedin_url` of the matched
person (the same value as the record's `linkedin_url` field); it is not
overwritten with the original input URL. -/
theorem C10_shortcircuit_vendor_url (url : Option String) (m e : ApiResponse)
    (c : CreditUsage) (p : Person)
    (hu : truthyStr url = true)
    (he : m.error = none)
    (hp : m.person = some p)
    (hne : p ≠ Person.empty)
    (hmob : truthyStr (extract_all p c).1.verified_mobile_phone = true) :
    (lookup_person url m e c).1.input_linkedin_url = p.linkedin_url ∧
    (lookup_person url m e c).1.linkedin_url = p.linkedin_url ∧
    (lookup_person url m e c).1.input_linkedin_url =
      (lookup_person url m e c).1.linkedin_url := by
  have h := lookup_person_shortcircuit url m e c p hu he hp hne hmob
  rw [h]
  refine ⟨?_, ?_, ?_⟩ <;>
    simp [extract_all, extract_verified_email, extract_verified_mobile]

/-- Witness for C10: the vendor echo differs from the input URL and is kept. -/
theorem C10_shortcircuit_vendor_url_witness :
    (lookup_person uIn mOk eIdle cZero).1.input_linkedin_url =
      pOk.linkedin_url ∧
    (lookup_person uIn mOk eIdle cZero).1.linkedin_url = pOk.linkedin_url ∧
    (lookup_person uIn mOk eIdle cZero).1.input_linkedin_url =
      (lookup_person uIn mOk eIdle cZero).1.linkedin_url :=
  C10_shortcircuit_vendor_url uIn mOk eIdle cZero pOk (by decide) rfl rfl
    (by decide) (by decide)

/-- Organization used by the enrich-path examples. -/
def orgC2 : Organization :=
  { name := some "Acme", website_url := some "https://acme.example",
    industry := some "Software" }

/-- Matched person with name/title/company data, a verified work email and
no phone candidates (so no verified mobile is found). -/
def pC2 : Person :=
  { Person.empty with
      linkedin_url := some "https://linkedin.com/in/alan"
      first_name := some "Alan"
      last_name := some "Turing"
      title := some "Researcher"
      id := some "p-001"
      emails := [{ email := some "alan@acme.example",
                   status := some "verified", type := some "work" }]
      organization := some orgC2 }

def mC2 : ApiResponse := { error := none, person := some pC2 }

/-- An enrich response representing a transport error. -/
def eC2 : ApiResponse := { error := some "500 Server Error", person := none }

/-- Claim C2: when match succeeds, no verified mobile is found, and the
enrich step fails (transport error or a response with no person payload),
the returned record keeps the match-extracted name, title and company
fields, has `lookup_used = "enrich"` and a non-null `apollo_error`. -/
theorem C2_enrich_failure_falls_back (url : Option String)
    (m e : ApiResponse) (c : CreditUsage) (p : Person)
    (hu : truthyStr url = true)
    (he : m.error = none)
    (hp : m.person = some p)
    (hne : p ≠ Person.empty)
    (hmob : (extract_all p c).1.verified_mobile_phone = none)
    (hfail : e.error ≠ none ∨ personTruthy e.person = false) :
    (lookup_person url m e c).1.first_name = (extract_all p c).1.first_name ∧
    (lookup_person url m e c).1.last_name = (extract_all p c).1.last_name ∧
    (lookup_person url m e c).1.job_title = (extract_all p c).1.job_title ∧
    (lookup_person url m e c).1.company_name =
      (extract_all p c).1.company_name ∧
    (lookup_person url m e c).1.company_website =
      (extract_all p c).1.company_website ∧
    (lookup_person url m e c).1.industry = (extract_all p c).1.industry ∧
    (lookup_person url m e c).1.lookup_used = some "enrich" ∧
    (lookup_person url m e c).1.apollo_error ≠ none := by
  cases hee : e.error with
  | some err =>
    have h := lookup_person_enrich_err_fst url m e c p err hu he hp hne hmob hee
    rw [h]
    simp
  | none =>
    have hf : personTruthy e.person = false := by
      rcases hfail with hf | hf
      · exact absurd hee hf
      · exact hf
    have h := lookup_person_enrich_none_fst url m e c p hu he hp hne hmob hee hf
    rw [h]
    simp

/-- Witness for C2 at a concrete enrich transport error. -/
theorem C2_enrich_failure_falls_back_witness :
    (lookup_person uIn mC2 eC2 cZero).1.first_name =
      (extract_all pC2 cZero).1.first_name ∧
    (lookup_person uIn mC2 eC2 cZero).1.last_name =
      (extract_all pC2 cZero).1.last_name ∧
    (lookup_person uIn mC2 eC2 cZero).1.job_title =
      (extract_all pC2 cZero).1.job_title ∧
    (lookup_person uIn mC2 eC2 cZero).1.company_name =
      (extract_all pC2 cZero).1.company_name ∧
    (lookup_person uIn mC2 eC2 cZero).1.company_website =
      (extract_all pC2 cZero).1.company_website ∧
    (lookup_person uIn mC2 eC2 cZero).1.industry =
      (extract_all pC2 cZero).1.industry ∧
    (lookup_person uIn mC2 eC2 cZero).1.lookup_used = some "enrich" ∧
    (lookup_person uIn mC2 eC2 cZero).1.apollo_error ≠ none :=
  C2_enrich_failure_falls_back uIn mC2 eC2 cZero pC2 (by decide) rfl rfl
    (by decide) (by decide) (Or.inl (by decide))

/-- Enriched person carrying a linkedin_url different from the input URL. -/
def epC3 : Person :=
  { Person.empty with
      linkedin_url := some "https://linkedin.com/in/enriched-echo"
      first_name := some "Alan"
      last_name := some "Turing"
      id := some "p-001"
      phone_numbers := [phFull]
      organization := some orgC2 }

def eC3 : ApiResponse := { error := none, person := some epC3 }

/-- Claim C3: when match succeeds without a verified mobile number and the
enrich step returns a person payload, the result is freshly extracted from
the enriched person with `lookup_used = "enrich"`, and `input_linkedin_url`
is forced back to the original input URL, whatever URL the enriched person
carries. -/
theorem C3_enrich_success_fresh_extraction (url : Option String)
    (m e : ApiResponse) (c : CreditUsage) (p ep : Person)
    (hu : truthyStr url = true)
    (he : m.error = none)
    (hp : m.person = some p)
    (hne : p ≠ Person.empty)
    (hmob : (extract_all p c).1.verified_mobile_phone = none)
    (hee : e.error = none)
    (hep : e.person = some ep)
    (hnee : ep ≠ Person.empty) :
    (lookup_person url m e c).1 =
      { (extract_all ep c).1 with
          lookup_used := some "enrich"
          input_linkedin_url := url } ∧
    (lookup_person url m e c).1.input_linkedin_url = url := by
  have h := lookup_person_enrich_success_fst url m e c p ep hu he hp hne hmob
    hee hep hnee
  rw [h]
  exact ⟨rfl, rfl⟩

/-- Witness for C3: the enriched person echoes a different URL, yet the
record's `input_linkedin_url` equals the original input. -/
theorem C3_enrich_success_fresh_extraction_witness :
    (lookup_person uIn mC2 eC3 cZero).1 =
      { (extract_all epC3 cZero).1 with
          lookup_used := some "enrich"
          input_linkedin_url := uIn } ∧
    (lookup_person uIn mC2 eC3 cZero).1.input_linkedin_url = uIn :=
  C3_enrich_success_fresh_extraction uIn mC2 eC3 cZero pC2 epC3 (by decide)
    rfl rfl (by decide) (by decide) rfl rfl (by decide)

/-- First email candidate of the C4 example: unverified work address. -/
def emC4a : EmailEntry :=
  { email := some "a@example.com", status := some "unverified",
    type := some "work" }

/-- Second email candidate of the C4 example: verified personal address. -/
def emC4b : EmailEntry :=
  { email := some "b@example.com", status := some "verified",
    type := some "personal" }

/-- Third email candidate of the C4 example: verified work address. -/
def emC4c : EmailEntry :=
  { email := some "c@example.com", status := some "verified",
    type := some "work" }

def pC4 : Person := { Person.empty with emails := [emC4a, emC4b, emC4c] }

/-- Claim C4: `extract_verified_email` returns the email of the first
candidate in list order whose status is "verified" and whose type is "work"
or "email" (null when no candidate qualifies), and on the example list
`[unverified work, verified personal, verified work]` it selects the third
candidate. -/
theorem C4_email_first_verified_work :
    (∀ (p : Person) (c : CreditUsage),
      (extract_verified_email p c).1 =
        (p.emails.find? emailQualifies).bind EmailEntry.email) ∧
    (pC4.emails = [emC4a, emC4b, emC4c] ∧
      emailQualifies emC4a = false ∧
      emailQualifies emC4b = false ∧
      emailQualifies emC4c = true ∧
      (extract_verified_email pC4 cZero).1 = emC4c.email ∧
      emC4c.email = some "c@example.com") :=
  ⟨fun p c => email_scan_eq_find p.emails c, by decide⟩

/-- A verified mobile candidate with an empty (but present) sanitized number
and a non-empty raw number. -/
def phC5 : PhoneEntry :=
  { number := some "123", sanitized_number := some "",
    label := some "mobile", status := some "verified" }

def pC5 : Person := { Person.empty with phone_numbers := [phC5] }

/-- Claim C5, as stated, is false: on a selected candidate where both
`sanitized_number` and `number` are present but `sanitized_number` is the
empty string, Python's `or` falls through to `number`, so the function does
not return the candidate's `sanitized_number`. -/
theorem C5_counterexample :
    pC5.phone_numbers = [phC5] ∧
    phoneQualifies phC5 = true ∧
    phC5.sanitized_number = some "" ∧
    phC5.number = some "123" ∧
    (extract_verified_mobile pC5 cZero).1 = some "123" ∧
    (extract_verified_mobile pC5 cZero).1 ≠ phC5.sanitized_number := by
  decide

/-- Claim C5 (amended): `extract_verified_mobile` returns, for the first
phone candidate in list order with label "mobile" and status "verified", the
Python-`or` of its `sanitized_number` and `number` fields — that is, the
`sanitized_number` whenever it is present and non-empty, otherwise the
`number` field — and null when no candidate qualifies. -/
theorem C5_mobile_first_verified :
    (∀ (p : Person) (c : CreditUsage),
      (extract_verified_mobile p c).1 =
        (p.phone_numbers.find? phoneQualifies).bind
          (fun q => pyOr q.sanitized_number q.number)) ∧
    (∀ (a b : Option String) (s : String),
      a = some s → s ≠ "" → pyOr a b = some s) ∧
    (∀ b : Option String, pyOr none b = b) ∧
    (∀ b : Option String, pyOr (some "") b = b) := by
  refine ⟨fun p c => phone_scan_eq_find p.phone_numbers c, ?_, fun b => rfl,
    fun b => rfl⟩
  intro a b s ha hs
  subst ha
  have h0 : s.isEmpty = false := by
    cases h : s.isEmpty
    · rfl
    · exact absurd ((String.isEmpty_iff s).mp h) hs
  simp [pyOr, truthyStr, h0]

/-- Witness for C5: a present, non-empty sanitized number is preferred. -/
theorem C5_mobile_first_verified_witness :
    pyOr (some "+15550002") (some "5550002") = some "+15550002" :=
  C5_mobile_first_verified.2.1 (some "+15550002") (some "5550002")
    "+15550002" rfl (by decide)

/-- Claim C6, as stated, is false for empty-string input: the code calls
`_empty_result(None, ...)`, so `input_linkedin_url` is null rather than the
empty value that was given as input. -/
theorem C6_counterexample :
    truthyStr (some "") = false ∧
    (lookup_person (some "") mOk eIdle cZero).1.apollo_error =
      some "Empty LinkedIn URL." ∧
    (lookup_person (some "") mOk eIdle cZero).1.input_linkedin_url = none ∧
    (lookup_person (some "") mOk eIdle cZero).1.input_linkedin_url ≠
      some "" := by
  decide

/-- Claim C6 (amended): for every empty or null input URL, `lookup_person`
returns a record in which all 13 fields are null except
`apollo_error = "Empty LinkedIn URL."`; in particular `input_linkedin_url`
is null even when the input was the empty string (it is not passed
through). -/
theorem C6_empty_input_all_null (url : Option String) (m e : ApiResponse)
    (c : CreditUsage) (h : url = none ∨ url = some "") :
    (lookup_person url m e c).1.input_linkedin_url = none ∧
    (lookup_person url m e c).1.first_name = none ∧
    (lookup_person url m e c).1.last_name = none ∧
    (lookup_person url m e c).1.job_title = none ∧
    (lookup_person url m e c).1.company_name = none ∧
    (lookup_person url m e c).1.company_website = none ∧
    (lookup_person url m e c).1.industry = none ∧
    (lookup_person url m e c).1.verified_email = none ∧
    (lookup_person url m e c).1.verified_mobile_phone = none ∧
    (lookup_person url m e c).1.linkedin_url = none ∧
    (lookup_person url m e c).1.apollo_person_id = none ∧
    (lookup_person url m e c).1.lookup_used = none ∧
    (lookup_person url m e c).1.apollo_error =
      some "Empty LinkedIn URL." := by
  have hu : truthyStr url = false := by
    rcases h with h | h <;> subst h <;> rfl
  rw [lookup_person_empty_input url m e c hu]
  simp [empty_result]

/-- Witness for C6 at the empty-string input. -/
theorem C6_empty_input_all_null_witness :
    (lookup_person (some "") mC2 eC2 cZero).1.input_linkedin_url = none ∧
    (lookup_person (some "") mC2 eC2 cZero).1.first_name = none ∧
    (lookup_person (some "") mC2 eC2 cZero).1.last_name = none ∧
    (lookup_person (some "") mC2 eC2 cZero).1.job_title = none ∧
    (lookup_person (some "") mC2 eC2 cZero).1.company_name = none ∧
    (lookup_person (some "") mC2 eC2 cZero).1.company_website = none ∧
    (lookup_person (some "") mC2 eC2 cZero).1.industry = none ∧
    (lookup_person (some "") mC2 eC2 cZero).1.verified_email = none ∧
    (lookup_person (some "") mC2 eC2 cZero).1.verified_mobile_phone = none ∧
    (lookup_person (some "") mC2 eC2 cZero).1.linkedin_url = none ∧
    (lookup_person (some "") mC2 eC2 cZero).1.apollo_person_id = none ∧
    (lookup_person (some "") mC2 eC2 cZero).1.lookup_used = none ∧
    (lookup_person (some "") mC2 eC2 cZero).1.apollo_error =
      some "Empty LinkedIn URL." :=
  C6_empty_input_all_null (some "") mC2 eC2 cZero (Or.inr rfl)

/-- Claim C7: for a non-empty input URL, when the match call returns a
transport error or a response without a person payload, every data field of
the returned record is null, `input_linkedin_url` equals the original input,
and `apollo_error` is `"MATCH API error: <error>"` respectively
`"No match found."`. -/
theorem C7_match_failure_all_null (url : Option String) (m e : ApiResponse)
    (c : CreditUsage) (s : String)
    (hu : url = some s) (hs : s ≠ "")
    (hfail : m.error ≠ none ∨ personTruthy m.person = false) :
    (lookup_person url m e c).1.first_name = none ∧
    (lookup_person url m e c).1.last_name = none ∧
    (lookup_person url m e c).1.job_title = none ∧
    (lookup_person url m e c).1.company_name = none ∧
    (lookup_person url m e c).1.company_website = none ∧
    (lookup_person url m e c).1.industry = none ∧
    (lookup_person url m e c).1.verified_email = none ∧
    (lookup_person url m e c).1.verified_mobile_phone = none ∧
    (lookup_person url m e c).1.linkedin_url = none ∧
    (lookup_person url m e c).1.apollo_person_id = none ∧
    (lookup_person url m e c).1.lookup_used = none ∧
    (lookup_person url m e c).1.input_linkedin_url = url ∧
    ((∃ err, m.error = some err ∧
        (lookup_person url m e c).1.apollo_error =
          some ("MATCH API error: " ++ err)) ∨
      (m.error = none ∧
        (lookup_person url m e c).1.apollo_error =
          some "No match found.")) := by
  subst hu
  have hu2 : truthyStr (some s) = true := truthyStr_some_of_ne s hs
  cases he : m.error with
  | some err =>
    rw [lookup_person_match_err (some s) m e c err hu2 he]
    refine ⟨rfl, rfl, rfl, rfl, rfl, rfl, rfl, rfl, rfl, rfl, rfl, rfl, ?_⟩
    exact Or.inl ⟨err, rfl, rfl⟩
  | none =>
    have hf : personTruthy m.person = false := by
      rcases hfail with hf | hf
      · exact absurd he hf
      · exact hf
    rw [lookup_person_no_match (some s) m e c hu2 he hf]
    refine ⟨rfl, rfl, rfl, rfl, rfl, rfl, rfl, rfl, rfl, rfl, rfl, rfl, ?_⟩
    exact Or.inr ⟨rfl, rfl⟩

/-- A match response with a transport error, for the C7 witness. -/
def mC7 : ApiResponse := { error := some "conn reset", person := none }

/-- Witness for C7 at a concrete match transport error. -/
theorem C7_match_failure_all_null_witness :
    (lookup_person uIn mC7 eIdle cZero).1.first_name = none ∧
    (lookup_person uIn mC7 eIdle cZero).1.last_name = none ∧
    (lookup_person uIn mC7 eIdle cZero).1.job_title = none ∧
    (lookup_person uIn mC7 eIdle cZero).1.company_name = none ∧
    (lookup_person uIn mC7 eIdle cZero).1.company_website = none ∧
    (lookup_person uIn mC7 eIdle cZero).1.industry = none ∧
    (lookup_person uIn mC7 eIdle cZero).1.verified_email = none ∧
    (lookup_person uIn mC7 eIdle cZero).1.verified_mobile_phone = none ∧
    (lookup_person uIn mC7 eIdle cZero).1.linkedin_url = none ∧
    (lookup_person uIn mC7 eIdle cZero).1.apollo_person_id = none ∧
    (lookup_person uIn mC7 eIdle cZero).1.lookup_used = none ∧
    (lookup_person uIn mC7 eIdle cZero).1.input_linkedin_url = uIn ∧
    ((∃ err, mC7.error = some err ∧
        (lookup_person uIn mC7 eIdle cZero).1.apollo_error =
          some ("MATCH API error: " ++ err)) ∨
      (mC7.error = none ∧
        (lookup_person uIn mC7 eIdle cZero).1.apollo_error =
          some "No match found.")) :=
  C7_match_failure_all_null uIn mC7 eIdle cZero
    "https://linkedin.com/in/original-input" rfl (by decide)
    (Or.inl (by decide))

/-- Claim C8: batch processing produces exactly one output record per input
row; the record at index `i` is the lookup result of input row `i` under the
credit state accumulated over the first `i` rows (order is preserved); and
every output record serializes to exactly the 13 fixed field names in the
fixed order. -/
theorem C8_one_record_per_row_in_order :
    (∀ (rows : List RowEnv) (c : CreditUsage),
      (process_rows rows c).1.length = rows.length) ∧
    (∀ (rows : List RowEnv) (c : CreditUsage) (i : Nat)
      (h : i < rows.length),
      ((process_rows rows c).1)[i]? =
        some (lookup_person (rows[i]).url (rows[i]).matchResp
          (rows[i]).enrichResp (process_rows (rows.take i) c).2).1) ∧
    (∀ r : OutputRecord,
      (OutputRecord.toFields r).map Prod.fst = OUTPUT_FIELDNAMES ∧
      (OutputRecord.toFields r).length = 13) := by
  refine ⟨?_, ?_, fun r => ⟨rfl, rfl⟩⟩
  · intro rows
    induction rows with
    | nil => intro c; rfl
    | cons r rest ih => intro c; simp [process_rows, ih]
  · intro rows
    induction rows with
    | nil => intro c i h; exact absurd h (by simp)
    | cons r rest ih =>
      intro c i h
      cases i with
      | zero => simp [process_rows]
      | succ i =>
        have h2 : i < rest.length := by simpa using h
        have hrec := ih (lookup_person r.url r.matchResp r.enrichResp c).2 i h2
        simpa [process_rows, List.take_succ_cons] using hrec

/-- Input rows for the C8 witness: an empty URL and a match error. -/
def rowC8a : RowEnv := { url := some "", matchResp := mOk, enrichResp := eIdle }

def rowC8b : RowEnv :=
  { url := some "https://linkedin.com/in/b", matchResp := mC7,
    enrichResp := eIdle }

def rowsC8 : List RowEnv := [rowC8a, rowC8b]

/-- Witness for C8 on a concrete two-row batch at index 1. -/
theorem C8_one_record_per_row_in_order_witness :
    ((process_rows rowsC8 cZero).1)[1]? =
      some (lookup_person rowC8b.url rowC8b.matchResp rowC8b.enrichResp
        (process_rows (rowsC8.take 1) cZero).2).1 := by
  have h := C8_one_record_per_row_in_order.2.1 rowsC8 cZero 1 (by decide)
  simpa [rowsC8] using h

/-- Matched person for C9: a verified work email plus a verified mobile
candidate whose number is empty, so the mobile-credit counter is bumped but
the short-circuit test fails and enrichment proceeds. -/
def pC9 : Person :=
  { Person.empty with
      linkedin_url := some "https://linkedin.com/in/c9"
      first_name := some "Edsger"
      emails := [{ email := some "e@acme.example",
                   status := some "verified", type := some "work" }]
      phone_numbers := [phEmptyNum] }

/-- Enriched person for C9: another verified email and a full verified
mobile candidate. -/
def epC9 : Person :=
  { Person.empty with
      linkedin_url := some "https://linkedin.com/in/c9-enriched"
      first_name := some "Edsger"
      emails := [{ email := some "e2@acme.example",
                   status := some "verified", type := some "email" }]
      phone_numbers := [phFull] }

def mC9 : ApiResponse := { error := none, person := some pC9 }

def eC9 : ApiResponse := { error := none, person := some epC9 }

/-- Claim C9: on the path where enrichment is attempted and returns a person
payload, extraction runs on both the match person and the enriched person,
so a single input row can raise the email-credit and mobile-credit counters
by 2 each — more than 1. -/
theorem C9_two_extractions_double_credits :
    (lookup_person uIn mC9 eC9 cZero).1.lookup_used = some "enrich" ∧
    (lookup_person uIn mC9 eC9 cZero).2.email_credits = 2 ∧
    (lookup_person uIn mC9 eC9 cZero).2.mobile_credits = 2 ∧
    1 < (lookup_person uIn mC9 eC9 cZero).2.email_credits ∧
    1 < (lookup_person uIn mC9 eC9 cZero).2.mobile_credits := by
  decide
